import Mathlib

/-!
Verification of the EVM storage instructions (`sload`, `sstore`) of the
tangerine_whistle fork, as implemented in
`src/ethereum/tangerine_whistle/vm/instructions/storage.py`.

The instruction bodies are translated line by line from that file.  The
collaborators it imports (`pop`/`push` from the stack module, `charge_gas`
and the gas constants from the gas module, `get_storage`/`set_storage`
from the state module) are not part of the provided sources, so they are
modelled from the specification's contracts for them.

Python's in-place mutation and exceptions are embedded by explicit state
passing: each instruction takes an `Evm` frame and returns either the
updated frame or an error paired with the frame as it stood at the moment
the exception was raised (mutations performed before the raise persist in
that frame, mirroring the Python object's state when the frame is
discarded).
-/

/-- Errors that can abort an EVM frame in this subsystem. -/
inductive EvmError where
  | StackUnderflowError
  | OutOfGasError
  | StackOverflowError
deriving DecidableEq, Repr

/-- Address of a contract (a 160-bit value, modelled as `Nat`). -/
abbrev Address := Nat

/-- Storage key: 32 bytes, as produced by `U256.to_be_bytes32`. -/
abbrev Bytes32 := List Nat

/-- World storage: association list from (address, key) to the stored word;
the most recent write for a given slot shadows older entries. -/
abbrev State := List ((Address × Bytes32) × Nat)

/-- Execution environment carried by the frame (`evm.env` in the source);
only the `state` field is used by the storage instructions. -/
structure Environment where
  state : State
deriving DecidableEq, Repr

/-- Message carried by the frame (`evm.message` in the source); only
`current_target` is used by the storage instructions. -/
structure Message where
  current_target : Address
deriving DecidableEq, Repr

/-- Execution frame (`Evm` in the source).  The stack is a list of words
with its head as the top of the stack. -/
structure Evm where
  stack : List Nat
  pc : Nat
  gas_left : Nat
  refund_counter : Nat
  env : Environment
  message : Message
deriving DecidableEq, Repr

/-- Modelled from the spec: gas constant `G_LOAD`, the fixed cost of a
storage load (the source docstring states `sload` fails when
`evm.gas_left` is less than 50). -/
def GAS_SLOAD : Nat := 50

/-- Modelled from the spec: gas constant `G_SET`, charged when a store
transitions an empty slot to an occupied one (Scenario A of the spec and
the `sstore` docstring give 20000). -/
def GAS_STORAGE_SET : Nat := 20000

/-- Modelled from the spec: gas constant `G_RESET`, charged for any other
storage transition (Scenario B of the spec gives 5000). -/
def GAS_STORAGE_UPDATE : Nat := 5000

/-- Modelled from the spec: refund constant `G_CLEAR_REFUND`, granted when
a store clears a nonzero slot (Scenario B of the spec gives 15000). -/
def GAS_STORAGE_CLEAR_REFUND : Nat := 15000

/-- Modelled from the spec: `pop() -> Word` of the StackMachine, which
fails with StackUnderflow if the stack is empty and otherwise removes and
returns the top word. -/
def pop (stack : List Nat) : Except EvmError (Nat × List Nat) :=
  match stack with
  | [] => .error .StackUnderflowError
  | x :: rest => .ok (x, rest)

/-- Modelled from the spec: `push(Word)` of the StackMachine, which fails
with StackOverflow if the depth limit of 1024 would be exceeded and
otherwise places the word on top of the stack. -/
def push (stack : List Nat) (value : Nat) : Except EvmError (List Nat) :=
  if 1024 ≤ stack.length then .error .StackOverflowError
  else .ok (value :: stack)

/-- Modelled from the spec: `U256.to_be_bytes32`, converting a 256-bit
word to its 32-byte big-endian representation, used as the storage key. -/
def to_be_bytes32 (n : Nat) : Bytes32 :=
  (List.range 32).map (fun i => n / 256 ^ (31 - i) % 256)

/-- Modelled from the spec: `get(address, key)` of the WorldStateStore,
returning the stored word for the slot and zero for unset keys. -/
def get_storage (state : State) (address : Address) (key : Bytes32) : Nat :=
  match state with
  | [] => 0
  | ((a, k), v) :: rest =>
      if a = address ∧ k = key then v else get_storage rest address key

/-- Modelled from the spec: `set(address, key, Word)` of the
WorldStateStore, which creates, overwrites, or logically clears (via zero)
the slot; embedded by prepending the new binding, which shadows any older
one. -/
def set_storage (state : State) (address : Address) (key : Bytes32)
    (value : Nat) : State :=
  ((address, key), value) :: state

/-- Modelled from the spec: `charge(frame, amount)` of the GasAccountant,
which decrements `gas_left` by `amount`, or fails with OutOfGas leaving
`gas_left == 0`. -/
def charge_gas (evm : Evm) (amount : Nat) : Except (EvmError × Evm) Evm :=
  if amount ≤ evm.gas_left then
    .ok { evm with gas_left := evm.gas_left - amount }
  else
    .error (.OutOfGasError, { evm with gas_left := 0 })

/-- Translation of `sload` from
`src/ethereum/tangerine_whistle/vm/instructions/storage.py`. -/
def sload (evm : Evm) : Except (EvmError × Evm) Evm :=
  -- STACK
  match pop evm.stack with
  | .error e => .error (e, evm)
  | .ok (keyWord, stack1) =>
    let key := to_be_bytes32 keyWord
    let evm1 := { evm with stack := stack1 }
    -- GAS
    match charge_gas evm1 GAS_SLOAD with
    | .error r => .error r
    | .ok evm2 =>
      -- OPERATION
      let value := get_storage evm2.env.state evm2.message.current_target key
      match push evm2.stack value with
      | .error e => .error (e, evm2)
      | .ok stack2 =>
        -- PROGRAM COUNTER
        .ok { evm2 with stack := stack2, pc := evm2.pc + 1 }

/-- Translation of `sstore` from
`src/ethereum/tangerine_whistle/vm/instructions/storage.py`. -/
def sstore (evm : Evm) : Except (EvmError × Evm) Evm :=
  -- STACK
  match pop evm.stack with
  | .error e => .error (e, evm)
  | .ok (keyWord, stack1) =>
    let key := to_be_bytes32 keyWord
    let evm1 := { evm with stack := stack1 }
    match pop evm1.stack with
    | .error e => .error (e, evm1)
    | .ok (new_value, stack2) =>
      let evm2 := { evm1 with stack := stack2 }
      -- GAS
      let current_value :=
        get_storage evm2.env.state evm2.message.current_target key
      let gas_cost :=
        if new_value ≠ 0 ∧ current_value = 0 then GAS_STORAGE_SET
        else GAS_STORAGE_UPDATE
      match charge_gas evm2 gas_cost with
      | .error r => .error r
      | .ok evm3 =>
        let evm4 :=
          if new_value = 0 ∧ current_value ≠ 0 then
            { evm3 with
              refund_counter :=
                evm3.refund_counter + GAS_STORAGE_CLEAR_REFUND }
          else evm3
        -- OPERATION
        let evm5 :=
          { evm4 with
            env :=
              { evm4.env with
                state :=
                  set_storage evm4.env.state evm4.message.current_target
                    key new_value } }
        -- PROGRAM COUNTER
        .ok { evm5 with pc := evm5.pc + 1 }

/-- Frame carried by an instruction's outcome: the updated frame on
success, or the frame as it stood when the error was raised. -/
def resultEvm (r : Except (EvmError × Evm) Evm) : Evm :=
  match r with
  | .ok e => e
  | .error (_, e) => e

/-! ## Helper lemmas characterising the two instructions -/

/-- Reading a slot immediately after writing it returns the written
value. -/
theorem get_set_storage (st : State) (a : Address) (key : Bytes32) (v : Nat) :
    get_storage (set_storage st a key v) a key = v := by
  simp [get_storage, set_storage]

/-- Characterisation of a successful `sstore`: with at least two stack
elements and enough gas, the instruction pops both operands, charges the
two-tier cost, adds the clearing refund when applicable, writes the slot
and advances `pc`. -/
theorem sstore_ok_char (evm : Evm) (k v : Nat) (rest : List Nat)
    (hstack : evm.stack = k :: v :: rest)
    (hgas : (if v ≠ 0 ∧
        get_storage evm.env.state evm.message.current_target
          (to_be_bytes32 k) = 0 then
      GAS_STORAGE_SET else GAS_STORAGE_UPDATE) ≤ evm.gas_left) :
    sstore evm = .ok
      { stack := rest,
        pc := evm.pc + 1,
        gas_left := evm.gas_left -
          (if v ≠ 0 ∧
              get_storage evm.env.state evm.message.current_target
                (to_be_bytes32 k) = 0 then
            GAS_STORAGE_SET else GAS_STORAGE_UPDATE),
        refund_counter := evm.refund_counter +
          (if v = 0 ∧
              get_storage evm.env.state evm.message.current_target
                (to_be_bytes32 k) ≠ 0 then
            GAS_STORAGE_CLEAR_REFUND else 0),
        env := { state := set_storage evm.env.state
                   evm.message.current_target (to_be_bytes32 k) v },
        message := evm.message } := by
  simp only [sstore, pop, hstack, charge_gas, if_pos hgas]
  split <;> rename_i h <;> simp [h]

/-- Characterisation of an `sstore` that runs out of gas: both operands
are popped and the current value read, but the storage write and the
refund increment never happen. -/
theorem sstore_oog_char (evm : Evm) (k v : Nat) (rest : List Nat)
    (hstack : evm.stack = k :: v :: rest)
    (hgas : evm.gas_left <
      (if v ≠ 0 ∧
          get_storage evm.env.state evm.message.current_target
            (to_be_bytes32 k) = 0 then
        GAS_STORAGE_SET else GAS_STORAGE_UPDATE)) :
    sstore evm = .error (.OutOfGasError,
      { stack := rest,
        pc := evm.pc,
        gas_left := 0,
        refund_counter := evm.refund_counter,
        env := evm.env,
        message := evm.message }) := by
  simp only [sstore, pop, hstack, charge_gas, if_neg (Nat.not_le.mpr hgas)]

/-- Characterisation of a successful `sload`: pop the key, charge
`GAS_SLOAD`, push the stored value, advance `pc`. -/
theorem sload_ok_char (evm : Evm) (k : Nat) (rest : List Nat)
    (hstack : evm.stack = k :: rest)
    (hgas : GAS_SLOAD ≤ evm.gas_left)
    (hlen : rest.length < 1024) :
    sload evm = .ok
      { stack := get_storage evm.env.state evm.message.current_target
          (to_be_bytes32 k) :: rest,
        pc := evm.pc + 1,
        gas_left := evm.gas_left - GAS_SLOAD,
        refund_counter := evm.refund_counter,
        env := evm.env,
        message := evm.message } := by
  simp only [sload, pop, hstack, charge_gas, if_pos hgas, push,
    if_neg (Nat.not_le.mpr hlen)]

/-- A successful `sstore` implies the selected gas cost fit into
`gas_left`. -/
theorem sstore_ok_gas_le (evm evm1 : Evm) (k v : Nat) (rest : List Nat)
    (hstack : evm.stack = k :: v :: rest)
    (hok : sstore evm = .ok evm1) :
    (if v ≠ 0 ∧
        get_storage evm.env.state evm.message.current_target
          (to_be_bytes32 k) = 0 then
      GAS_STORAGE_SET else GAS_STORAGE_UPDATE) ≤ evm.gas_left := by
  by_contra h
  rw [sstore_oog_char evm k v rest hstack (Nat.not_le.mp h)] at hok
  exact Except.noConfusion hok

/-! ## Example frames used by the witnesses -/

/-- Frame of Scenario A of the spec: gas 21100, empty storage, key 5 and
value 7 on the stack. -/
def exEvmA : Evm :=
  { stack := [5, 7], pc := 0, gas_left := 21100, refund_counter := 0,
    env := { state := [] }, message := { current_target := 7 } }

/-- Result frame of running `sstore` on `exEvmA`. -/
def exEvmA1 : Evm :=
  { stack := [], pc := 1, gas_left := 1100, refund_counter := 0,
    env := { state := [((7, to_be_bytes32 5), 7)] },
    message := { current_target := 7 } }

/-- Frame of Scenario B of the spec: slot (7, key 5) holds 7, the store
clears it. -/
def exEvmB : Evm :=
  { stack := [5, 0], pc := 0, gas_left := 21100, refund_counter := 0,
    env := { state := [((7, to_be_bytes32 5), 7)] },
    message := { current_target := 7 } }

/-- Result frame of running `sstore` on `exEvmB`. -/
def exEvmB1 : Evm :=
  { stack := [], pc := 1, gas_left := 16100, refund_counter := 15000,
    env := { state := [((7, to_be_bytes32 5), 0), ((7, to_be_bytes32 5), 7)] },
    message := { current_target := 7 } }

/-- Frame with two stack elements but only 10 gas, so `sstore` fails with
OutOfGas. -/
def exEvmOog : Evm :=
  { stack := [5, 7], pc := 0, gas_left := 10, refund_counter := 0,
    env := { state := [] }, message := { current_target := 7 } }

/-- Frame `exEvmOog` at the moment the OutOfGas error is raised. -/
def exEvmOog1 : Evm :=
  { stack := [], pc := 0, gas_left := 0, refund_counter := 0,
    env := { state := [] }, message := { current_target := 7 } }

/-- Frame with one stack element and a populated slot, for a successful
`sload`. -/
def exEvmL : Evm :=
  { stack := [5], pc := 4, gas_left := 100, refund_counter := 3,
    env := { state := [((7, to_be_bytes32 5), 9)] },
    message := { current_target := 7 } }

/-- Frame whose stack holds exactly one element, so `sstore`
underflows on its second pop. -/
def exEvmU1 : Evm :=
  { stack := [5], pc := 2, gas_left := 77, refund_counter := 3,
    env := { state := [] }, message := { current_target := 7 } }

/-- Frame with an empty stack, so `sload` underflows immediately. -/
def exEvmEmpty : Evm :=
  { stack := [], pc := 0, gas_left := 100, refund_counter := 0,
    env := { state := [] }, message := { current_target := 7 } }

/-! ## Claim theorems -/

/-- C1: for every `sstore` that reaches the gas-charge step and succeeds,
the amount charged (the drop in `gas_left`) equals `GAS_STORAGE_SET`
exactly when the popped `new_value` is nonzero and the current stored
value at (current_target, key) is zero, and equals `GAS_STORAGE_UPDATE`
in every other case. -/
theorem sstore_gas_cost_rule (evm evm1 : Evm) (k v : Nat) (rest : List Nat)
    (hstack : evm.stack = k :: v :: rest)
    (hok : sstore evm = .ok evm1) :
    (evm.gas_left - evm1.gas_left = GAS_STORAGE_SET ↔
      (v ≠ 0 ∧ get_storage evm.env.state evm.message.current_target
        (to_be_bytes32 k) = 0)) ∧
    (¬ (v ≠ 0 ∧ get_storage evm.env.state evm.message.current_target
        (to_be_bytes32 k) = 0) →
      evm.gas_left - evm1.gas_left = GAS_STORAGE_UPDATE) := by
  have hgas := sstore_ok_gas_le evm evm1 k v rest hstack hok
  rw [sstore_ok_char evm k v rest hstack hgas] at hok
  injection hok with hok
  subst hok
  simp only [Nat.sub_sub_self hgas]
  by_cases hcond : v ≠ 0 ∧ get_storage evm.env.state
      evm.message.current_target (to_be_bytes32 k) = 0
  · simp [hcond]
  · simp [hcond, GAS_STORAGE_SET, GAS_STORAGE_UPDATE]

/-- Witness for C1 at Scenario A of the spec: storing 7 into the empty
slot (7, key 5) with 21100 gas charges `GAS_STORAGE_SET`. -/
theorem sstore_gas_cost_rule_witness :
    (exEvmA.gas_left - exEvmA1.gas_left = GAS_STORAGE_SET ↔
      ((7 : Nat) ≠ 0 ∧ get_storage exEvmA.env.state
        exEvmA.message.current_target (to_be_bytes32 5) = 0)) ∧
    (¬ ((7 : Nat) ≠ 0 ∧ get_storage exEvmA.env.state
        exEvmA.message.current_target (to_be_bytes32 5) = 0) →
      exEvmA.gas_left - exEvmA1.gas_left = GAS_STORAGE_UPDATE) :=
  sstore_gas_cost_rule exEvmA exEvmA1 5 7 [] rfl rfl

/-- C2: for every successful `sstore`, `refund_counter` increases by
exactly `GAS_STORAGE_CLEAR_REFUND` when the popped `new_value` is zero
and the current stored value is nonzero, and is unchanged for every other
transition; the single equation per call grants the increment at most
once. -/
theorem sstore_refund_rule (evm evm1 : Evm) (k v : Nat) (rest : List Nat)
    (hstack : evm.stack = k :: v :: rest)
    (hok : sstore evm = .ok evm1) :
    ((v = 0 ∧ get_storage evm.env.state evm.message.current_target
        (to_be_bytes32 k) ≠ 0) →
      evm1.refund_counter =
        evm.refund_counter + GAS_STORAGE_CLEAR_REFUND) ∧
    (¬ (v = 0 ∧ get_storage evm.env.state evm.message.current_target
        (to_be_bytes32 k) ≠ 0) →
      evm1.refund_counter = evm.refund_counter) := by
  have hgas := sstore_ok_gas_le evm evm1 k v rest hstack hok
  rw [sstore_ok_char evm k v rest hstack hgas] at hok
  injection hok with hok
  subst hok
  by_cases hcond : v = 0 ∧ get_storage evm.env.state
      evm.message.current_target (to_be_bytes32 k) ≠ 0
  · simp [hcond]
  · simp [hcond]

/-- Witness for C2 at Scenario B of the spec: clearing the nonzero slot
(7, key 5) adds `GAS_STORAGE_CLEAR_REFUND` to the refund counter. -/
theorem sstore_refund_rule_witness :
    (((0 : Nat) = 0 ∧ get_storage exEvmB.env.state
        exEvmB.message.current_target (to_be_bytes32 5) ≠ 0) →
      exEvmB1.refund_counter =
        exEvmB.refund_counter + GAS_STORAGE_CLEAR_REFUND) ∧
    (¬ ((0 : Nat) = 0 ∧ get_storage exEvmB.env.state
        exEvmB.message.current_target (to_be_bytes32 5) ≠ 0) →
      exEvmB1.refund_counter = exEvmB.refund_counter) :=
  sstore_refund_rule exEvmB exEvmB1 5 0 [] rfl rfl

/-- C3: every `sstore` that fails with OutOfGas at the charge step leaves
the world state (hence the slot at (current_target, key)) and the refund
counter of the aborting frame unchanged: the failure happens after the
read of `current_value` but before the write and the refund increment. -/
theorem sstore_oog_no_mutation (evm e1 : Evm)
    (herr : sstore evm = .error (.OutOfGasError, e1)) :
    e1.env.state = evm.env.state ∧ e1.refund_counter = evm.refund_counter := by
  rcases hs : evm.stack with _ | ⟨k, _ | ⟨v, rest⟩⟩
  · simp [sstore, pop, hs] at herr
  · simp [sstore, pop, hs] at herr
  · rcases le_or_lt (if v ≠ 0 ∧
        get_storage evm.env.state evm.message.current_target
          (to_be_bytes32 k) = 0 then
      GAS_STORAGE_SET else GAS_STORAGE_UPDATE) evm.gas_left with hgas | hgas
    · rw [sstore_ok_char evm k v rest hs hgas] at herr
      exact Except.noConfusion herr
    · rw [sstore_oog_char evm k v rest hs hgas] at herr
      injection herr with herr
      have h2 := congrArg Prod.snd herr
      simp at h2
      subst h2
      exact ⟨rfl, rfl⟩

/-- Witness for C3: storing with only 10 gas fails with OutOfGas and
leaves storage and the refund counter unchanged. -/
theorem sstore_oog_no_mutation_witness :
    exEvmOog1.env.state = exEvmOog.env.state ∧
    exEvmOog1.refund_counter = exEvmOog.refund_counter :=
  sstore_oog_no_mutation exEvmOog exEvmOog1 rfl

/-- C4: on a frame with at least one stack element, stack depth within the
1024 bound, and sufficient gas, `sload` pops the key, charges exactly
`GAS_SLOAD`, pushes the value stored at (current_target, key) (zero when
unset), advances `pc` by one, and mutates nothing else (world state,
refund counter and target are untouched). -/
theorem sload_success_effects (evm : Evm) (k : Nat) (rest : List Nat)
    (hstack : evm.stack = k :: rest)
    (hdepth : evm.stack.length ≤ 1024)
    (hgas : GAS_SLOAD ≤ evm.gas_left) :
    sload evm = .ok
      { stack := get_storage evm.env.state evm.message.current_target
          (to_be_bytes32 k) :: rest,
        pc := evm.pc + 1,
        gas_left := evm.gas_left - GAS_SLOAD,
        refund_counter := evm.refund_counter,
        env := evm.env,
        message := evm.message } := by
  refine sload_ok_char evm k rest hstack hgas ?_
  rw [hstack] at hdepth
  simp at hdepth
  omega

/-- Witness for C4: loading key 5 from a frame whose slot (7, key 5)
holds 9 pushes 9, charges 50 gas and bumps `pc`. -/
theorem sload_success_effects_witness :
    sload exEvmL = .ok
      { stack := get_storage exEvmL.env.state exEvmL.message.current_target
          (to_be_bytes32 5) :: [],
        pc := exEvmL.pc + 1,
        gas_left := exEvmL.gas_left - GAS_SLOAD,
        refund_counter := exEvmL.refund_counter,
        env := exEvmL.env,
        message := exEvmL.message } :=
  sload_success_effects exEvmL 5 [] rfl (by decide) (by decide)

/-- C5: a successful `sstore` of value V at key K, immediately followed by
an `sload` of the same key on the resulting frame (with sufficient gas and
no intervening abort), pushes V onto the stack. -/
theorem sstore_sload_roundtrip (evm evm1 : Evm) (k v : Nat) (rest : List Nat)
    (hstack : evm.stack = k :: v :: rest)
    (hok : sstore evm = .ok evm1)
    (hgas2 : GAS_SLOAD ≤ evm1.gas_left)
    (hlen : rest.length < 1024) :
    ∃ evm2, sload { evm1 with stack := k :: evm1.stack } = .ok evm2 ∧
      evm2.stack = v :: rest := by
  have hgas := sstore_ok_gas_le evm evm1 k v rest hstack hok
  rw [sstore_ok_char evm k v rest hstack hgas] at hok
  injection hok with hok
  subst hok
  refine ⟨_, sload_ok_char _ k rest rfl hgas2 hlen, ?_⟩
  simp [get_set_storage]

/-- Witness for C5: after storing 7 at key 5 (Scenario A), loading key 5
pushes 7. -/
theorem sstore_sload_roundtrip_witness :
    ∃ evm2, sload { exEvmA1 with stack := 5 :: exEvmA1.stack } = .ok evm2 ∧
      evm2.stack = 7 :: [] :=
  sstore_sload_roundtrip exEvmA exEvmA1 5 7 [] rfl rfl (by decide) (by decide)

/-- C6: on a frame with fewer than two stack elements, `sstore` fails with
StackUnderflow, and the frame at the moment of failure has its gas, world
state and refund counter untouched (no gas charged, no read performed). -/
theorem sstore_underflow_no_charge (evm : Evm) (hlen : evm.stack.length < 2) :
    ∃ e1, sstore evm = .error (.StackUnderflowError, e1) ∧
      e1.gas_left = evm.gas_left ∧
      e1.env.state = evm.env.state ∧
      e1.refund_counter = evm.refund_counter := by
  rcases hs : evm.stack with _ | ⟨k, _ | ⟨v, rest⟩⟩
  · exact ⟨evm, by simp [sstore, pop, hs], rfl, rfl, rfl⟩
  · exact ⟨{ evm with stack := [] }, by simp [sstore, pop, hs], rfl, rfl, rfl⟩
  · rw [hs] at hlen
    simp at hlen
    omega

/-- Witness for C6: `sstore` on a one-element stack underflows with gas,
state and refund preserved. -/
theorem sstore_underflow_no_charge_witness :
    ∃ e1, sstore exEvmU1 = .error (.StackUnderflowError, e1) ∧
      e1.gas_left = exEvmU1.gas_left ∧
      e1.env.state = exEvmU1.env.state ∧
      e1.refund_counter = exEvmU1.refund_counter :=
  sstore_underflow_no_charge exEvmU1 (by decide)

/-- C7: on a frame with an empty stack, `sload` fails with StackUnderflow
and the frame at the moment of failure is exactly the input frame:
`gas_left`, the stack, `pc`, `refund_counter` and the world state are all
unchanged. -/
theorem sload_empty_underflow (evm : Evm) (hs : evm.stack = []) :
    sload evm = .error (.StackUnderflowError, evm) := by
  simp [sload, pop, hs]

/-- Witness for C7: `sload` on an empty-stack frame underflows leaving the
frame untouched. -/
theorem sload_empty_underflow_witness :
    sload exEvmEmpty = .error (.StackUnderflowError, exEvmEmpty) :=
  sload_empty_underflow exEvmEmpty rfl

/-- C8: for every frame and every outcome (success or failure), `sload`
never changes `refund_counter` at all, and `sstore` only ever increases
it; neither instruction ever decrements it. -/
theorem refund_counter_monotone (evm : Evm) :
    (resultEvm (sload evm)).refund_counter = evm.refund_counter ∧
    evm.refund_counter ≤ (resultEvm (sstore evm)).refund_counter := by
  constructor
  · rcases hs : evm.stack with _ | ⟨k, rest⟩
    · simp [sload, pop, hs, resultEvm]
    · rcases le_or_lt GAS_SLOAD evm.gas_left with hg | hg
      · rcases le_or_lt 1024 rest.length with hp | hp
        · simp [sload, pop, hs, charge_gas, if_pos hg, push, if_pos hp,
            resultEvm]
        · simp [sload, pop, hs, charge_gas, if_pos hg, push,
            if_neg (Nat.not_le.mpr hp), resultEvm]
      · simp [sload, pop, hs, charge_gas, if_neg (Nat.not_le.mpr hg),
          resultEvm]
  · rcases hs : evm.stack with _ | ⟨k, _ | ⟨v, rest⟩⟩
    · simp [sstore, pop, hs, resultEvm]
    · simp [sstore, pop, hs, resultEvm]
    · rcases le_or_lt (if v ≠ 0 ∧
          get_storage evm.env.state evm.message.current_target
            (to_be_bytes32 k) = 0 then
        GAS_STORAGE_SET else GAS_STORAGE_UPDATE) evm.gas_left with hg | hg
      · rw [sstore_ok_char evm k v rest hs hg]
        simp only [resultEvm]
        exact Nat.le_add_right _ _
      · rw [sstore_oog_char evm k v rest hs hg]
        simp [resultEvm]

/-- C9: `sload` and `sstore` are deterministic: two frames that agree on
the stack, `pc`, `gas_left`, `refund_counter`, world-state contents and
current target produce identical outcomes (gas, stack, refund, pc,
storage and error alike). -/
theorem storage_ops_deterministic (evm1 evm2 : Evm)
    (h1 : evm1.stack = evm2.stack) (h2 : evm1.pc = evm2.pc)
    (h3 : evm1.gas_left = evm2.gas_left)
    (h4 : evm1.refund_counter = evm2.refund_counter)
    (h5 : evm1.env.state = evm2.env.state)
    (h6 : evm1.message.current_target = evm2.message.current_target) :
    sload evm1 = sload evm2 ∧ sstore evm1 = sstore evm2 := by
  obtain ⟨s1, p1, g1, r1, ⟨st1⟩, ⟨t1⟩⟩ := evm1
  obtain ⟨s2, p2, g2, r2, ⟨st2⟩, ⟨t2⟩⟩ := evm2
  simp only at h1 h2 h3 h4 h5 h6
  subst h1; subst h2; subst h3; subst h4; subst h5; subst h6
  exact ⟨rfl, rfl⟩

/-- Witness for C9: the determinism theorem applied to two copies of the
Scenario A frame. -/
theorem storage_ops_deterministic_witness :
    sload exEvmA = sload exEvmA ∧ sstore exEvmA = sstore exEvmA :=
  storage_ops_deterministic exEvmA exEvmA rfl rfl rfl rfl rfl rfl

/-- C10: `sstore` on a frame whose stack holds exactly one element fails
with StackUnderflow raised by the second pop: the frame at the moment the
error propagates has an empty (already mutated) stack, while gas, storage,
refund counter and pc are untouched. -/
theorem sstore_one_element_pops_then_underflows (evm : Evm) (k : Nat)
    (hs : evm.stack = [k]) :
    sstore evm = .error (.StackUnderflowError, { evm with stack := [] }) := by
  simp [sstore, pop, hs]

/-- Witness for C10: `sstore` on the one-element frame raises
StackUnderflow with the stack already emptied. -/
theorem sstore_one_element_pops_then_underflows_witness :
    sstore exEvmU1 =
      .error (.StackUnderflowError, { exEvmU1 with stack := [] }) :=
  sstore_one_element_pops_then_underflows exEvmU1 5 rfl
